import Mathlib

/-!
Verification of the ffb_replay FFB protocol core.

Shallow embedding of the repository's data model and of the operations the
specification talks about:

* `src/effects.rs` — the effect data model;
* `src/drivers/sdl_driver.rs` — the native-scale converter of the
  Capture-Backed Encoder and the `apply_effect` guard;
* `src/drivers/simagic_driver.rs` — the Direct Protocol Encoder (report
  construction and the per-effect report sequence);
* `src/usb_monitor.rs` — the streaming pcap parser, the two platform
  record decoders, the FFB-command classifier and the packet queue.

Machine integers are modelled as `Nat`/`Int` with explicit wrapping or
saturation where the source relies on it.  The two places where the source
computes with `f32` (the scale converter, and the offset / dead-band
encoders of the condition-parameter report) are modelled exactly: an
IEEE-754 single has a 24-bit significand and rounds to nearest, ties to
even, so the product or quotient of a small integer with an `f32` constant
is reproduced by integer arithmetic on scaled numerators.  `fl25` below
rounds an exact positive rational to the binary32 grid and returns the
numerator of the result over the fixed denominator `2^25`; this
representation is exact for every value arising in the source (all
quotients lie in `[2^-2, 2^15)` and all products in `[2^1, 2^16)`).

Several numeric definitions are written with the explicit sequencing
combinator `nseq` (which evaluates a `Nat` to a literal before
substituting it); this does not change their value — `nseq_eq` proves
`nseq x f = f x` — and only keeps kernel evaluation of the exhaustive
range checks cheap.
-/

namespace FfbReplay

/-- Sequencing combinator: force a `Nat` to a literal (by matching on its
constructor) before substituting it into the continuation.  Semantically
the identity, see `nseq_eq`. -/
def nseq {α : Type} : Nat → (Nat → α) → α
  | 0, f => f 0
  | n+1, f => f (n+1)

/-- Bit length of a byte-sized number: `bitlenSmall n = ⌊log₂ n⌋ + 1` for
`0 < n < 256`, and `0` at `0`. -/
def bitlenSmall (n : Nat) : Nat :=
  if n = 0 then 0 else if n < 2 then 1 else if n < 4 then 2 else if n < 8 then 3
  else if n < 16 then 4 else if n < 32 then 5 else if n < 64 then 6
  else if n < 128 then 7 else 8

/-- Fuel-driven bit length, used as the fallback above 2^32. -/
def bitlenAux : Nat → Nat → Nat
  | 0, _ => 0
  | fuel+1, n => if n = 0 then 0 else bitlenAux fuel (n / 2) + 1

/-- Bit length of a natural number: `bitlen n = ⌊log₂ n⌋ + 1` for `n > 0`
and `bitlen 0 = 0`.  Branches on byte boundaries so that the kernel can
evaluate it with a handful of comparisons. -/
def bitlen (m : Nat) : Nat :=
  nseq m fun n =>
  if n < 256 then bitlenSmall n
  else if n < 65536 then nseq (n / 256) fun t => 8 + bitlenSmall t
  else if n < 16777216 then nseq (n / 65536) fun t => 16 + bitlenSmall t
  else if n < 4294967296 then nseq (n / 16777216) fun t => 24 + bitlenSmall t
  else bitlenAux 64 n

/-- Round the rational `n / d` (with `d > 0`) to the nearest integer,
ties to even — the rounding of IEEE-754 binary arithmetic. -/
def rne (n0 d0 : Nat) : Nat :=
  nseq n0 fun n => nseq d0 fun d =>
  nseq (n / d) fun q => nseq (n % d) fun r => nseq (2 * r) fun r2 =>
  if d < r2 then q + 1
  else if r2 < d then q
  else if q % 2 = 0 then q else q + 1

/-- Round the positive rational `num / den` to the nearest `f32`
(binary32: 24-bit significand, round to nearest, ties to even) and return
the numerator of the result over the fixed denominator `2^25`.  Exact for
quotients in `[2^-2, 2^16)`, which covers every `f32` value computed by
the source (the `scale_magnitude` products and the `/3.28`, `/6.56`
quotients of the condition-parameter encoder). -/
def fl25 (num0 den0 : Nat) : Nat :=
  nseq num0 fun num => nseq den0 fun den =>
  if num = 0 then 0
  else
    -- `ep2 = e + 2` where `2^e ≤ num/den < 2^(e+1)`; the binary32 grid
    -- step at that magnitude is `2^(e-23)`, i.e. `2^ep2` over `2^25`
    nseq (bitlen (4 * num / den) - 1) fun ep2 =>
    rne (num * Nat.pow 2 (25 - ep2)) den * Nat.pow 2 ep2

/-- The constant `SCALE_FACTOR = 32767.0 / 10000.0` of `sdl_driver.rs`,
evaluated in `f32`: the nearest binary32 to `3.2767` is
`13743476 / 2^22`. -/
def scaleFactorNum : Nat := 13743476

/-- Nonnegative core of the native-scale converter: the `f32` product
`m * SCALE_FACTOR` (numerator over `2^25` via `fl25`), truncated toward
zero by the `as i16` cast, and clamped at `32767`. -/
def scaleN (m : Nat) : Nat :=
  nseq (fl25 (m * scaleFactorNum) 4194304 / 33554432) fun t => min t 32767

/-- Model of `scale_magnitude` (`sdl_driver.rs`):
`((value as f32) * SCALE_FACTOR).clamp(-32767.0, 32767.0) as i16`.
Rounding to binary32 and the truncating cast are both symmetric in sign,
so the converter is the signed extension of `scaleN`. -/
def scale_magnitude (v : Int) : Int :=
  if 0 ≤ v then (scaleN v.natAbs : Int) else -(scaleN v.natAbs : Int)

/-- Model of `scale_magnitude_u16` (`sdl_driver.rs`):
`((value as f32) * SCALE_FACTOR).clamp(0.0, 32767.0) as i16`. -/
def scale_magnitude_u16 (v : Nat) : Int := (scaleN v : Int)

/-- Modelled from the spec: nonnegative core of
`round(m * 32767/10000)` (round half away from zero) clamped to the
native range — the conversion the specification claims the native-scale
converter performs. -/
def claimN (m : Nat) : Nat :=
  nseq ((m * 32767 * 2 + 10000) / 20000) fun a => min a 32767

/-- Modelled from the spec: `round(m * 32767/10000)` clamped to
`[-32767, 32767]`. -/
def claimScale (m : Int) : Int :=
  if 0 ≤ m then (claimN m.natAbs : Int) else -(claimN m.natAbs : Int)

/-- Boolean check that two naturals differ by at most one. -/
def near1 (s0 c0 : Nat) : Bool :=
  nseq s0 fun s => nseq c0 fun c => Nat.ble (s - c) 1 && Nat.ble (c - s) 1

/-- Pointwise check behind claim C1: on `[0, 10000]` the converter is
within one unit of the spec's rounded value (and trivially `true` above
the domain bound). -/
def c1check (m : Nat) : Bool :=
  if 10000 < m then true else near1 (scaleN m) (claimN m)

/-- Exhaustive range conjunction, shaped as a binary tree so that kernel
evaluation needs only logarithmic recursion depth:
`allTree f lo k` checks `f` on `[lo, lo + 2^k)`. -/
def allTree (f : Nat → Bool) (lo : Nat) : Nat → Bool
  | 0 => f lo
  | k+1 => allTree f lo k && allTree f (lo + Nat.pow 2 k) k

end FfbReplay

namespace FfbReplay

/-! The effect data model (`src/effects.rs`). -/

/-- Effect direction in degrees (`Direction(pub u16)`). -/
structure Direction where
  val : Nat
deriving DecidableEq

/-- Attack/fade envelope (`Envelope`). -/
structure Envelope where
  attack_time : Nat
  attack_level : Nat
  fade_time : Nat
  fade_level : Nat
deriving DecidableEq

/-- Constant force payload (`ConstantForce`); `magnitude` is an `i16` in
the documented `[-10000, 10000]` domain. -/
structure ConstantForce where
  magnitude : Int
  direction : Direction
  envelope : Envelope
deriving DecidableEq

/-- Periodic wave shapes (`WaveType`). -/
inductive WaveType where
  | Sine | Square | Triangle | SawtoothUp | SawtoothDown
deriving DecidableEq

/-- Periodic effect payload (`PeriodicEffect`). -/
structure PeriodicEffect where
  wave_type : WaveType
  magnitude : Nat
  offset : Int
  phase : Nat
  period : Nat
  direction : Direction
  envelope : Envelope
deriving DecidableEq

/-- Ramp effect payload (`RampEffect`). -/
structure RampEffect where
  start_magnitude : Int
  end_magnitude : Int
  direction : Direction
  envelope : Envelope
deriving DecidableEq

/-- Condition effect kinds (`ConditionType`). -/
inductive ConditionType where
  | Spring | Damper | Friction | Inertia
deriving DecidableEq

/-- Per-axis condition parameters (`ConditionParams`); coefficients and
offset are `i16`, saturations and dead band `u16`. -/
structure ConditionParams where
  offset : Int
  positive_coefficient : Int
  negative_coefficient : Int
  positive_saturation : Nat
  negative_saturation : Nat
  dead_band : Nat
deriving DecidableEq

/-- Condition effect payload (`ConditionEffect`). -/
structure ConditionEffect where
  condition_type : ConditionType
  x_axis : ConditionParams
deriving DecidableEq

/-- Shared effect parameters (`EffectParams`). -/
structure EffectParams where
  duration : Nat
  start_delay : Nat
  gain : Nat
deriving DecidableEq

/-- The closed effect union (`Effect`). -/
inductive Effect where
  | Constant (params : EffectParams) (force : ConstantForce)
  | Periodic (params : EffectParams) (effect : PeriodicEffect)
  | Ramp (params : EffectParams) (effect : RampEffect)
  | Condition (params : EffectParams) (effect : ConditionEffect)
deriving DecidableEq

/-- Error kinds (`src/error.rs`, `FFBError`). -/
inductive FFBError where
  | DeviceNotFound
  | InitializationFailed (detail : String)
  | EffectCreationFailed (detail : String)
  | EffectPlaybackFailed (detail : String)
  | EffectStopFailed (detail : String)
  | DeviceError (detail : String)
  | InvalidParameter (detail : String)
deriving DecidableEq

end FfbReplay

namespace FfbReplay

/-! The Direct Protocol Encoder (`src/drivers/simagic_driver.rs`). -/

/-- Command bytes of the SIMAGIC FFB protocol (`FfbCommand`). -/
inductive FfbCommand where
  | SetEffect | SetConditionParams | SetConstantMagnitude | StartEffect | StopEffect
deriving DecidableEq

/-- Discriminant values of `FfbCommand` (`#[repr(u8)]`). -/
def FfbCommand.code : FfbCommand → Nat
  | .SetEffect => 0x01
  | .SetConditionParams => 0x03
  | .SetConstantMagnitude => 0x05
  | .StartEffect => 0x0A
  | .StopEffect => 0x0B

/-- Effect-type bytes of the SIMAGIC FFB protocol (`SimagicEffectType`). -/
inductive SimagicEffectType where
  | Constant | Sine | Damper | Spring | Ramp | Square | Triangle
  | SawtoothUp | SawtoothDown | Friction | Inertia
deriving DecidableEq

/-- Discriminant values of `SimagicEffectType` (`#[repr(u8)]`), preserved
exactly as in the source, including the codes marked assumed. -/
def SimagicEffectType.code : SimagicEffectType → Nat
  | .Constant => 0x01
  | .Sine => 0x02
  | .Damper => 0x05
  | .Spring => 0x06
  | .Ramp => 0x0E
  | .Square => 0x0F
  | .Triangle => 0x10
  | .SawtoothUp => 0x11
  | .SawtoothDown => 0x12
  | .Friction => 0x07
  | .Inertia => 0x09

/-- Mapping from model effects to protocol effect types
(`impl From<&Effect> for SimagicEffectType`). -/
def simagicEffectTypeOf : Effect → SimagicEffectType
  | .Constant _ _ => .Constant
  | .Periodic _ e =>
    match e.wave_type with
    | .Sine => .Sine
    | .Square => .Square
    | .Triangle => .Triangle
    | .SawtoothUp => .SawtoothUp
    | .SawtoothDown => .SawtoothDown
  | .Ramp _ _ => .Ramp
  | .Condition _ e =>
    match e.condition_type with
    | .Spring => .Spring
    | .Damper => .Damper
    | .Friction => .Friction
    | .Inertia => .Inertia

/-- HID report structure (`FfbReport`): report id, command byte, effect
type byte and 18 data bytes. -/
structure FfbReport where
  report_id : Nat
  command : Nat
  effect_type : Nat
  data : List Nat
deriving DecidableEq

/-- Default report (`impl Default for FfbReport`): report id `0x01`, all
remaining bytes zero. -/
def FfbReport.mkDefault : FfbReport :=
  { report_id := 0x01, command := 0x00, effect_type := 0x00, data := List.replicate 18 0 }

/-- Serialization (`FfbReport::to_bytes`): 21 bytes, header followed by
the 18 data bytes. -/
def FfbReport.to_bytes (r : FfbReport) : List Nat :=
  [r.report_id, r.command, r.effect_type] ++ r.data

/-- Driver state (`SimagicDriver`): the current effect slot and the
`initialized` flag. -/
structure SimagicDriver where
  current_effect_slot : Nat
  initialized : Bool
deriving DecidableEq

/-- Constructor (`SimagicDriver::new`). -/
def SimagicDriver.new : SimagicDriver :=
  { current_effect_slot := 1, initialized := false }

/-- Low 16 bits of an `i16` value, i.e. its two's-complement `u16`
image — the bit pattern that `(v & 0xFF)` and `((v >> 8) & 0xFF)`
expose byte by byte. -/
def u16of (x : Int) : Nat := (x % 65536).toNat

/-- Saturating `i16` subtraction (`i16::saturating_sub`). -/
def i16SaturatingSub (x y : Int) : Int := min (max (x - y) (-32768)) 32767

/-- Saturating `i16` addition (`i16::saturating_add`). -/
def i16SaturatingAdd (x y : Int) : Int := min (max (x + y) (-32768)) 32767

/-- Model of `SimagicDriver::create_set_effect_report`: `SET_EFFECT`
(0x01) with effect slot 1, the duration clamped to `0xFFFF` in little
endian (`duration & 0xFF`, `(duration >> 8) & 0xFF`), zero start delay,
and the fixed constants of the capture.  The data list spells out the
default-zero array after the source's indexed writes `data[0..=10]`. -/
def create_set_effect_report (effect_type : SimagicEffectType) (duration_ms : Nat) : List Nat :=
  let duration := min duration_ms 0xFFFF
  FfbReport.to_bytes
    { FfbReport.mkDefault with
        command := FfbCommand.SetEffect.code
        effect_type := effect_type.code
        data := [0x01, duration % 256, duration / 256 % 256, 0x00, 0x00,
                 0x00, 0x00, 0xFF, 0xFF, 0x04, 0x3F, 0, 0, 0, 0, 0, 0, 0] }

/-- Magnitude adjustment of `SimagicDriver::create_set_constant_magnitude_report`:
`1 ↦ 0`; `0`, `±10000` unchanged; otherwise one unit toward zero via the
saturating `i16` operations of the source. -/
def constantMagnitudeAdjust (magnitude : Int) : Int :=
  if magnitude = 1 then 0
  else if magnitude = 10000 ∨ magnitude = -10000 ∨ magnitude = 0 then magnitude
  else if 0 < magnitude then i16SaturatingSub magnitude 1
  else i16SaturatingAdd magnitude 1

/-- Model of `SimagicDriver::create_set_constant_magnitude_report`:
`SET_CONSTANT_MAGNITUDE` (0x05) with the effect slot in the effect-type
byte and the adjusted magnitude in little endian. -/
def create_set_constant_magnitude_report (effect_slot : Nat) (magnitude : Int) : List Nat :=
  let adjusted := constantMagnitudeAdjust magnitude
  FfbReport.to_bytes
    { FfbReport.mkDefault with
        command := FfbCommand.SetConstantMagnitude.code
        effect_type := effect_slot
        data := [u16of adjusted % 256, u16of adjusted / 256 % 256,
                 0, 0, 0, 0, 0, 0, 0, 0, 0, 0, 0, 0, 0, 0, 0, 0] }

/-- Offset encoder of `SimagicDriver::create_set_condition_params_report`:
`(offset as f32) / 3.28`, `ceil` for nonnegative offsets and `floor` for
negative ones, then the `as i16` cast.  The binary32 nearest to `3.28` is
`13757317 / 2^22`, so the `f32` quotient for `|offset| = a` is
`a * 2^22 / 13757317` rounded by `fl25`; `floor` of a negative value is
the negated `ceil` of its absolute value. -/
def condOffCeilN (a : Nat) : Nat :=
  (fl25 (a * 4194304) 13757317 + 33554431) / 33554432

/-- Signed offset encoder, see `condOffCeilN`: `ceil` of the `f32`
quotient for nonnegative offsets, `floor` (the negated `ceil` of the
absolute value) for negative ones. -/
def condOffsetEncode (offset : Int) : Int :=
  if 0 ≤ offset then (condOffCeilN offset.natAbs : Int) else -(condOffCeilN offset.natAbs : Int)

/-- Wrapping cast to `i16` (`as i16` on an overflowing value). -/
def wrapI16 (x : Int) : Int := (x + 32768) % 65536 - 32768

/-- Coefficient encoder of the condition-parameter report: unchanged at
`0` or at `≥ 10000`, otherwise decremented by one (the source's plain
`i16` subtraction followed by the `as i16` cast, which only wraps at
`-32768`, outside the documented domain). -/
def condCoeffEncode (coefficient : Int) : Int :=
  if coefficient = 0 ∨ 10000 ≤ coefficient then coefficient else wrapI16 (coefficient - 1)

/-- Saturation encoder of the condition-parameter report:
`(saturation / 2).saturating_sub(1)` on `u16`, which truncated `Nat`
subtraction models exactly. -/
def condSatEncode (saturation : Nat) : Nat := saturation / 2 - 1

/-- Dead-band encoder of the condition-parameter report:
`((dead_band as f32) / 6.56).ceil() as u16`.  The binary32 nearest to
`6.56` is `13757317 / 2^21`, so the `f32` quotient for `dead_band = d` is
`d * 2^21 / 13757317` rounded by `fl25`. -/
def condDeadbandEncode (dead_band : Nat) : Nat :=
  (fl25 (dead_band * 2097152) 13757317 + 33554431) / 33554432

/-- Model of `SimagicDriver::create_set_condition_params_report`:
`SET_CONDITION_PARAMS` (0x03) with the six encoded fields little-endian
at their documented offsets. -/
def create_set_condition_params_report (effect_type : SimagicEffectType)
    (params : ConditionParams) : List Nat :=
  let offset := condOffsetEncode params.offset
  let pos_coeff := condCoeffEncode params.positive_coefficient
  let neg_coeff := condCoeffEncode params.negative_coefficient
  let pos_sat := condSatEncode params.positive_saturation
  let neg_sat := condSatEncode params.negative_saturation
  let dead_band := condDeadbandEncode params.dead_band
  FfbReport.to_bytes
    { FfbReport.mkDefault with
        command := FfbCommand.SetConditionParams.code
        effect_type := effect_type.code
        data := [0x00,
                 u16of offset % 256, u16of offset / 256 % 256,
                 u16of pos_coeff % 256, u16of pos_coeff / 256 % 256,
                 u16of neg_coeff % 256, u16of neg_coeff / 256 % 256,
                 pos_sat % 256, pos_sat / 256 % 256,
                 neg_sat % 256, neg_sat / 256 % 256,
                 dead_band % 256, dead_band / 256 % 256,
                 0, 0, 0, 0, 0] }

/-- Model of `SimagicDriver::create_start_effect_report`: `START_EFFECT`
(0x0A) with the effect slot and play count 1. -/
def create_start_effect_report (effect_type : SimagicEffectType) (effect_slot : Nat) : List Nat :=
  FfbReport.to_bytes
    { FfbReport.mkDefault with
        command := FfbCommand.StartEffect.code
        effect_type := effect_type.code
        data := [effect_slot, 0x01, 0, 0, 0, 0, 0, 0, 0, 0, 0, 0, 0, 0, 0, 0, 0, 0] }

/-- Uppercase hex digit of a value below 16. -/
def hexDigit (n : Nat) : Char :=
  if n < 10 then Char.ofNat (48 + n) else Char.ofNat (55 + n)

/-- Two-digit uppercase hex image of a byte (the `{:02X}` format). -/
def byteHex (b : Nat) : String :=
  String.mk [hexDigit (b / 16 % 16), hexDigit (b % 16)]

/-- Model of `format_hex` / `SimagicDriver::format_report`: bytes as
space-separated uppercase hex pairs. -/
def format_hex (data : List Nat) : String :=
  String.intercalate (" ") (data.map byteHex)

/-- Report sequence generated by `SimagicDriver::apply_effect` for one
effect (the `generated_reports` vector, in push order). -/
def simagicReports (s : SimagicDriver) (effect : Effect) : List (List Nat) :=
  let effect_type := simagicEffectTypeOf effect
  match effect with
  | .Constant params force =>
    (if force.magnitude ≠ 0 ∧ force.magnitude ≠ -1 then
      [create_set_constant_magnitude_report s.current_effect_slot force.magnitude]
     else [])
    ++ [create_set_effect_report effect_type params.duration,
        create_start_effect_report effect_type s.current_effect_slot]
  | .Periodic params _ =>
    [create_set_effect_report effect_type params.duration,
     create_start_effect_report effect_type s.current_effect_slot]
  | .Ramp params _ =>
    [create_set_effect_report effect_type params.duration,
     create_start_effect_report effect_type s.current_effect_slot]
  | .Condition params condition =>
    [create_set_condition_params_report effect_type condition.x_axis,
     create_set_effect_report effect_type params.duration,
     create_start_effect_report effect_type s.current_effect_slot]

/-- Model of `SimagicDriver::apply_effect`: fails with `DeviceError`
before initialization, otherwise returns the generated reports as hex
strings.  The source never writes to `self`, so the driver value is
returned unchanged on every path. -/
def SimagicDriver.apply_effect (s : SimagicDriver) (effect : Effect) :
    Except FFBError (List String) × SimagicDriver :=
  if ¬ s.initialized then
    (Except.error (FFBError.DeviceError ("Device not initialized")), s)
  else
    (Except.ok ((simagicReports s effect).map format_hex), s)

end FfbReplay

namespace FfbReplay

/-! The packet capture subsystem (`src/usb_monitor.rs`). -/

/-- Packet direction (`PacketDirection`). -/
inductive PacketDirection where
  | HostToDevice | DeviceToHost
deriving DecidableEq

/-- Captured USB packet (`UsbPacket`); the timestamp is in microseconds
(`Duration::from_secs(ts_sec) + Duration::from_micros(ts_usec)`). -/
structure UsbPacket where
  timestamp : Nat
  direction : PacketDirection
  endpoint : Nat
  data : List Nat
deriving DecidableEq

/-- Little-endian 16-bit read at an offset of a byte list. -/
def le16 (l : List Nat) (i : Nat) : Nat :=
  l.getD i 0 + 256 * l.getD (i+1) 0

/-- Little-endian 32-bit read at an offset of a byte list. -/
def le32 (l : List Nat) (i : Nat) : Nat :=
  l.getD i 0 + 256 * l.getD (i+1) 0 + 65536 * l.getD (i+2) 0 + 16777216 * l.getD (i+3) 0

/-- Little-endian 64-bit read at an offset of a byte list. -/
def le64 (l : List Nat) (i : Nat) : Nat :=
  le32 l i + 4294967296 * le32 l (i+4)

/-- Model of `UsbMonitor::parse_usbmon_packet` (Linux, layout B): 64-byte
`mon_bin_hdr`, keep only host-to-device Submit events of Interrupt or
Control transfers with a payload of at least two bytes. -/
def parse_usbmon_packet (data : List Nat) : Option UsbPacket :=
  if data.length < 64 then none
  else
    let event_type := data.getD 8 0
    let xfer_type := data.getD 9 0
    let epnum := data.getD 10 0
    let direction :=
      if epnum / 128 % 2 = 1 then PacketDirection.DeviceToHost else PacketDirection.HostToDevice
    let endpoint := epnum % 128
    if direction = PacketDirection.DeviceToHost then none
    else if event_type ≠ 0x53 then none
    else if xfer_type ≠ 1 ∧ xfer_type ≠ 2 then none
    else
      let len_cap := le32 data 36
      let payload_data :=
        if 64 < data.length ∧ 0 < len_cap then (data.drop 64).take len_cap else []
      if payload_data.isEmpty ∨ payload_data.length < 2 then none
      else
        let ts_sec := le64 data 16
        let ts_usec := le32 data 24
        some { timestamp := ts_sec * 1000000 + ts_usec
               direction := direction
               endpoint := endpoint
               data := payload_data }

/-- Model of `UsbMonitor::parse_usbpcap_packet` (Windows, layout A):
variable-length USBPcap header, keep only host-to-device Interrupt or
Control transfers with a payload of at least two bytes. -/
def parse_usbpcap_packet (data : List Nat) : Option UsbPacket :=
  if data.length < 27 then none
  else
    let header_len := le16 data 0
    if data.length < header_len then none
    else
      let info := data.getD 16 0
      let direction :=
        if info % 2 = 1 then PacketDirection.DeviceToHost else PacketDirection.HostToDevice
      let endpoint := data.getD 21 0 % 128
      let transfer_type := data.getD 22 0
      if transfer_type ≠ 1 ∧ transfer_type ≠ 2 then none
      else
        let payload_data := if header_len < data.length then data.drop header_len else []
        if payload_data.isEmpty then none
        else if direction = PacketDirection.DeviceToHost then none
        else if payload_data.length < 2 then none
        else
          some { timestamp := 0
                 direction := direction
                 endpoint := endpoint
                 data := payload_data }

/-- Model of `UsbMonitor::is_ffb_command`: host-to-device, non-empty, and
either a known report id (`0x11..=0x15`, `0xF3`, `0xF5`, `0x01..=0x0F`,
`0x21`) in the first payload byte or a payload of at least 7 bytes. -/
def is_ffb_command (packet : UsbPacket) : Bool :=
  if packet.direction ≠ PacketDirection.HostToDevice then false
  else if packet.data.isEmpty then false
  else
    let first_byte := packet.data.headD 0
    ((0x11 ≤ first_byte && first_byte ≤ 0x15) ||
     (first_byte == 0xF3) || (first_byte == 0xF5) ||
     (0x01 ≤ first_byte && first_byte ≤ 0x0F) ||
     (first_byte == 0x21)) ||
    7 ≤ packet.data.length

/-- Modelled from the spec's claim about the classifier: first payload
byte in `0x01–0x15`, `0x21`, `0xF3`, `0xF5`, or payload length at least
7 (the claim's range `0x01–0x15` includes `0x10`). -/
def claimFfbReportId (b : Nat) : Prop :=
  (0x01 ≤ b ∧ b ≤ 0x15) ∨ b = 0x21 ∨ b = 0xF3 ∨ b = 0xF5

/-- The report-id set the source actually matches: `0x01–0x0F`,
`0x11–0x15`, `0x21`, `0xF3`, `0xF5` — the claim's set minus `0x10`. -/
def sourceFfbReportId (b : Nat) : Prop :=
  (0x01 ≤ b ∧ b ≤ 0x0F) ∨ (0x11 ≤ b ∧ b ≤ 0x15) ∨ b = 0x21 ∨ b = 0xF3 ∨ b = 0xF5

/-- Shared mutex-guarded packet queue of `UsbMonitor`. -/
structure UsbMonitorState where
  packets : List UsbPacket
deriving DecidableEq

/-- A capture-thread push into the shared queue
(`packets.lock().unwrap().push(usb_packet)`). -/
def pushPacket (s : UsbMonitorState) (p : UsbPacket) : UsbMonitorState :=
  { packets := s.packets ++ [p] }

/-- Model of `UsbMonitor::get_packets`: clone the queue, clear it, return
the clone. -/
def get_packets (s : UsbMonitorState) : List UsbPacket × UsbMonitorState :=
  (s.packets, { packets := [] })

/-- State of the streaming pcap reader loop
(`UsbMonitor::linux_pcap_reader_loop`): the reassembly buffer, whether
the global header was consumed, whether the loop has aborted (invalid
magic), and the decoded packets in queue order. -/
structure PcapReaderState where
  buffer : List Nat
  header_read : Bool
  halted : Bool
  packets : List UsbPacket
deriving DecidableEq

/-- Initial reader state: empty buffer, header not read. -/
def PcapReaderState.init : PcapReaderState :=
  { buffer := [], header_read := false, halted := false, packets := [] }

/-- The record-extraction `while` loop of the reader: while at least 16
bytes are buffered, read `incl_len` from bytes 8..12 of the pcap record
header, wait for more data if the record is incomplete, otherwise decode
the record payload and drop the consumed bytes.  Structured with explicit
fuel (one unit per consumed byte is ample, each iteration consumes at
least 16). -/
def extractRecordsAux : Nat → List Nat → List UsbPacket → List Nat × List UsbPacket
  | 0, buf, acc => (buf, acc)
  | fuel+1, buf, acc =>
    if buf.length < 16 then (buf, acc)
    else
      let incl_len := le32 buf 8
      let total_packet_len := 16 + incl_len
      if buf.length < total_packet_len then (buf, acc)
      else
        let packet_data := (buf.drop 16).take incl_len
        let acc2 := match parse_usbmon_packet packet_data with
          | some p => acc ++ [p]
          | none => acc
        extractRecordsAux fuel (buf.drop total_packet_len) acc2

/-- One `Ok(n)` iteration of `linux_pcap_reader_loop`: append the chunk
to the buffer; if the global header is still pending and at least 24
bytes are buffered, check the magic (aborting the session on mismatch)
and drop the 24 header bytes; then run the record-extraction loop.  Note
that the source runs the extraction loop even when the global header has
not been consumed yet. -/
def feedChunk (st : PcapReaderState) (chunk : List Nat) : PcapReaderState :=
  if st.halted then st
  else
    let buf := st.buffer ++ chunk
    if ¬ st.header_read ∧ 24 ≤ buf.length then
      if buf.take 4 = [0xd4, 0xc3, 0xb2, 0xa1] ∨ buf.take 4 = [0xa1, 0xb2, 0xc3, 0xd4] then
        let res := extractRecordsAux buf.length (buf.drop 24) st.packets
        { buffer := res.1, header_read := true, halted := false, packets := res.2 }
      else
        { buffer := buf, header_read := false, halted := true, packets := st.packets }
    else
      let res := extractRecordsAux buf.length buf st.packets
      { buffer := res.1, header_read := st.header_read, halted := false, packets := res.2 }

/-- Feeding a sequence of read chunks to the reader loop. -/
def feedChunks (chunks : List (List Nat)) : PcapReaderState :=
  chunks.foldl feedChunk PcapReaderState.init

end FfbReplay

namespace FfbReplay

/-! The Capture-Backed Encoder (`src/drivers/sdl_driver.rs`).  The SDL
haptic subsystem is hardware; its responses are abstracted by `SdlHw`,
while the guard, the packet-queue handling and the classification /
formatting of captured packets follow the source. -/

/-- Abstraction of the SDL haptic subsystem's responses during one
`apply_effect` call: whether effect creation and playback succeed, and
the packets the capture thread pushes while the effect plays. -/
structure SdlHw where
  create_ok : Bool
  run_ok : Bool
  captured : List UsbPacket

/-- State of `SdlDriver`: the haptic handle (modelled by its nullness),
the current effect id, the `initialized` flag and the embedded
`UsbMonitor` queue. -/
structure SdlDriverState where
  haptic_null : Bool
  current_effect_id : Option Int
  initialized : Bool
  monitor : UsbMonitorState

/-- Constructor (`SdlDriver::new`): null haptic handle, no effect, not
initialized, empty monitor queue. -/
def SdlDriverState.new : SdlDriverState :=
  { haptic_null := true, current_effect_id := none, initialized := false,
    monitor := { packets := [] } }

/-- Model of `SdlDriver::apply_effect`: the `DeviceError` guard, the
pre-drain of the packet queue, the stop of the previous effect, the
SDL calls (via `SdlHw`), the post-drain, and the FFB filtering and hex
formatting of the captured packets. -/
def SdlDriverState.apply_effect (hw : SdlHw) (s : SdlDriverState) (_effect : Effect) :
    Except FFBError (List String) × SdlDriverState :=
  if ¬ s.initialized ∨ s.haptic_null then
    (Except.error (FFBError.DeviceError ("Device not initialized")), s)
  else
    let s1 : SdlDriverState :=
      { s with monitor := (get_packets s.monitor).2, current_effect_id := none }
    if ¬ hw.create_ok then
      (Except.error (FFBError.EffectCreationFailed ("sdl error")), s1)
    else if ¬ hw.run_ok then
      (Except.error (FFBError.EffectPlaybackFailed ("sdl error")), s1)
    else
      let s2 : SdlDriverState :=
        { s1 with monitor := hw.captured.foldl pushPacket s1.monitor,
                  current_effect_id := some 0 }
      let drained := get_packets s2.monitor
      (Except.ok ((drained.1.filter is_ffb_command).map (fun p => format_hex p.data)),
       { s2 with monitor := drained.2 })

end FfbReplay

namespace FfbReplay

/-! Spec-side encodings and pointwise checks for the condition-parameter
claim, plus the concrete byte streams used by the pcap-parser and
record-decoder claims. -/

/-- Modelled from the spec: offset over the exact real `3.28 = 82/25`,
rounded away from zero. -/
def specOffsetEncode (offset : Int) : Int :=
  if 0 ≤ offset then ((offset.natAbs * 25 + 81) / 82 : Nat)
  else -(((offset.natAbs * 25 + 81) / 82 : Nat) : Int)

/-- Modelled from the spec: coefficient unchanged only at `0` or
`≥ 10000`, otherwise decremented by one. -/
def specCoeffEncode (coefficient : Int) : Int :=
  if coefficient = 0 ∨ 10000 ≤ coefficient then coefficient else coefficient - 1

/-- Modelled from the spec: dead band as the exact
`ceil(dead_band / 6.56)` with `6.56 = 164/25`. -/
def specDeadbandEncode (dead_band : Nat) : Nat := (dead_band * 25 + 163) / 164

/-- Pointwise check: on `[0, 10000]` the `f32` offset encoder agrees
with the spec's exact away-from-zero rounding. -/
def c5offCheck (a : Nat) : Bool :=
  if 10000 < a then true else Nat.beq (condOffCeilN a) ((a * 25 + 81) / 82)

/-- Pointwise check: on `[0, 10000]` the `f32` dead-band encoder agrees
with the spec's exact ceiling. -/
def c5dbCheck (d : Nat) : Bool :=
  if 10000 < d then true else Nat.beq (condDeadbandEncode d) ((d * 25 + 163) / 164)

/-- A standard little-endian pcap global header: magic
`D4 C3 B2 A1`, version 2.4, zero thiszone/sigfigs, snaplen `0x40000`,
link type 220 (usbmon). -/
def pcapGlobalHeader : List Nat :=
  [0xd4, 0xc3, 0xb2, 0xa1, 2, 0, 4, 0,
   0, 0, 0, 0, 0, 0, 0, 0,
   0, 0, 4, 0, 220, 0, 0, 0]

/-- A 64-byte usbmon record header: Submit event (`'S'` = 0x53),
Interrupt transfer, endpoint 1 OUT, device 2, zero timestamp, data
length 2, captured length 2. -/
def usbmonHeaderBytes : List Nat :=
  List.replicate 8 0 ++ [0x53, 1, 1, 2] ++ List.replicate 20 0 ++
  [2, 0, 0, 0] ++ [2, 0, 0, 0] ++ List.replicate 24 0

/-- A complete pcap record: 16-byte record header with
`incl_len = orig_len = 66`, followed by the usbmon header and a 2-byte
payload `01 08`. -/
def pcapRecordBytes : List Nat :=
  List.replicate 8 0 ++ [66, 0, 0, 0] ++ [66, 0, 0, 0] ++ usbmonHeaderBytes ++ [1, 8]

/-- The stream of claim C7: global header plus one complete record. -/
def c7stream : List Nat := pcapGlobalHeader ++ pcapRecordBytes

/-- The packet the record above decodes to. -/
def c7packet : UsbPacket :=
  { timestamp := 0, direction := PacketDirection.HostToDevice, endpoint := 1, data := [1, 8] }

/-- A usbmon record identical to `usbmonHeaderBytes ++ [1, 8]` except
that its payload is the single byte `0x11`: a host-to-device Submit
record with a 1-byte payload. -/
def usbmonOneByteRecord : List Nat :=
  List.replicate 8 0 ++ [0x53, 1, 1, 2] ++ List.replicate 20 0 ++
  [1, 0, 0, 0] ++ [1, 0, 0, 0] ++ List.replicate 24 0 ++ [0x11]

/-- A USBPcap (layout A) record: 27-byte header (`header_len = 27`,
OUT direction, endpoint 1, Interrupt transfer) and a 2-byte payload
`01 08`. -/
def usbpcapSample : List Nat :=
  [27, 0] ++ List.replicate 14 0 ++ [0] ++ [0, 0, 0, 0] ++ [1] ++ [1] ++ [0, 0, 0, 0] ++ [1, 8]

/-- The same USBPcap record with a single-byte payload `0x11`. -/
def usbpcapOneByteSample : List Nat :=
  [27, 0] ++ List.replicate 14 0 ++ [0] ++ [0, 0, 0, 0] ++ [1] ++ [1] ++ [0, 0, 0, 0] ++ [0x11]

end FfbReplay

namespace FfbReplay

/-! Helper lemmas. -/

/-- The sequencing combinator is the identity. -/
theorem nseq_eq {α : Type} (x : Nat) (f : Nat → α) : nseq x f = f x := by
  cases x <;> rfl

/-- Soundness of the binary-tree range conjunction: if
`allTree f lo k` holds then `f` holds on all of `[lo, lo + 2^k)`. -/
theorem allTree_spec (f : Nat → Bool) :
    ∀ (k lo : Nat), allTree f lo k = true → ∀ i, i < Nat.pow 2 k → f (lo + i) = true := by
  intro k
  induction k with
  | zero =>
    intro lo h i hi
    have : i = 0 := by simpa [Nat.pow] using hi
    simpa [this] using h
  | succ k ih =>
    intro lo h i hi
    rw [allTree, Bool.and_eq_true] at h
    have hp : Nat.pow 2 (k + 1) = Nat.pow 2 k * 2 := Nat.pow_succ 2 k
    by_cases hc : i < Nat.pow 2 k
    · exact ih lo h.1 i hc
    · have h2 := ih (lo + Nat.pow 2 k) h.2 (i - Nat.pow 2 k) (by omega)
      have : lo + Nat.pow 2 k + (i - Nat.pow 2 k) = lo + i := by omega
      rwa [this] at h2

/-- Reading off the two truncated differences from `near1`. -/
theorem near1_le {s c : Nat} (h : near1 s c = true) : s - c ≤ 1 ∧ c - s ≤ 1 := by
  rw [near1, nseq_eq, nseq_eq, Bool.and_eq_true, Nat.ble_eq, Nat.ble_eq] at h
  exact h

/-- The clamped nonnegative scale never exceeds the native maximum. -/
theorem scaleN_le (m : Nat) : scaleN m ≤ 32767 := by
  rw [scaleN, nseq_eq]
  exact Nat.min_le_right _ _

/-- The spec-side clamped rounding never exceeds the native maximum. -/
theorem claimN_le (m : Nat) : claimN m ≤ 32767 := by
  rw [claimN, nseq_eq]
  exact Nat.min_le_right _ _

end FfbReplay

namespace FfbReplay

set_option maxRecDepth 10000 in
set_option maxHeartbeats 16000000 in
/-- Exhaustive check over `[0, 16384)` for claim C1's pointwise bound. -/
theorem c1all : allTree c1check 0 14 = true := of_decide_eq_true rfl

/-- On the documented domain, the nonnegative scale core is within one
unit of the spec's rounded value. -/
theorem c1point (m : Nat) (h : m ≤ 10000) :
    scaleN m - claimN m ≤ 1 ∧ claimN m - scaleN m ≤ 1 := by
  have h1 := allTree_spec c1check 14 0 c1all m
    (by rw [show Nat.pow 2 14 = 16384 from rfl]; omega)
  rw [Nat.zero_add, c1check, if_neg (by omega)] at h1
  exact near1_le h1

set_option maxRecDepth 10000 in
set_option maxHeartbeats 16000000 in
/-- Exhaustive check over `[0, 16384)`: the `f32` offset encoder matches
the exact away-from-zero rounding of the spec. -/
theorem c5offAll : allTree c5offCheck 0 14 = true := of_decide_eq_true rfl

/-- On the documented domain the `f32` offset encoder computes the exact
ceiling of `a / (82/25)`. -/
theorem c5offPoint (a : Nat) (h : a ≤ 10000) :
    condOffCeilN a = (a * 25 + 81) / 82 := by
  have h1 := allTree_spec c5offCheck 14 0 c5offAll a
    (by rw [show Nat.pow 2 14 = 16384 from rfl]; omega)
  rw [Nat.zero_add, c5offCheck, if_neg (by omega)] at h1
  exact Nat.eq_of_beq_eq_true h1

set_option maxRecDepth 10000 in
set_option maxHeartbeats 16000000 in
/-- Exhaustive check over `[0, 16384)`: the `f32` dead-band encoder
matches the exact ceiling of the spec. -/
theorem c5dbAll : allTree c5dbCheck 0 14 = true := of_decide_eq_true rfl

/-- On the documented domain the `f32` dead-band encoder computes the
exact ceiling of `d / (164/25)`. -/
theorem c5dbPoint (d : Nat) (h : d ≤ 10000) :
    condDeadbandEncode d = (d * 25 + 163) / 164 := by
  have h1 := allTree_spec c5dbCheck 14 0 c5dbAll d
    (by rw [show Nat.pow 2 14 = 16384 from rfl]; omega)
  rw [Nat.zero_add, c5dbCheck, if_neg (by omega)] at h1
  exact Nat.eq_of_beq_eq_true h1

end FfbReplay

namespace FfbReplay

/-- C1 (counterexample): the native-scale converter does not round to
nearest — at magnitude 2 it returns 6 where `round(2 * 32767/10000) = 7`;
the `as i16` cast truncates the `f32` product toward zero. -/
theorem c1_scale_counterexample :
    scale_magnitude 2 = 6 ∧ claimScale 2 = 7 ∧ scale_magnitude 2 ≠ claimScale 2 := by
  refine ⟨by decide, by decide, by decide⟩

/-- C1 (amended): for every magnitude in `[-10000, 10000]` the converter
returns the `f32` product `m * SCALE_FACTOR` truncated toward zero and
clamped to `[-32767, 32767]`, which is within one unit of
`round(m * 32767/10000)`; and exactly `scale(0) = 0`,
`scale(10000) = 32767`, `scale(-10000) = -32767`, with the unsigned
variant agreeing at the maximum. -/
theorem c1_scale_magnitude_amended :
    (∀ m : Int, -10000 ≤ m → m ≤ 10000 →
      (scale_magnitude m - claimScale m).natAbs ≤ 1 ∧
      -32767 ≤ scale_magnitude m ∧ scale_magnitude m ≤ 32767) ∧
    scale_magnitude 0 = 0 ∧ scale_magnitude 10000 = 32767 ∧
    scale_magnitude (-10000) = -32767 ∧ scale_magnitude_u16 10000 = 32767 := by
  refine ⟨?_, by decide, by decide, by decide, by decide⟩
  intro m h1 h2
  have ha : m.natAbs ≤ 10000 := by omega
  have hnear := c1point m.natAbs ha
  have hs := scaleN_le m.natAbs
  have hc := claimN_le m.natAbs
  rw [scale_magnitude, claimScale]
  by_cases hm : 0 ≤ m
  · rw [if_pos hm, if_pos hm]; omega
  · rw [if_neg hm, if_neg hm]; omega

/-- Witness for C1 (amended) at magnitude 3. -/
theorem c1_scale_magnitude_amended_witness :
    ((-10000 : Int) ≤ 3 ∧ (3 : Int) ≤ 10000) ∧
    ((scale_magnitude 3 - claimScale 3).natAbs ≤ 1 ∧
     -32767 ≤ scale_magnitude 3 ∧ scale_magnitude 3 ≤ 32767) :=
  ⟨⟨by decide, by decide⟩, c1_scale_magnitude_amended.1 3 (by decide) (by decide)⟩

/-- C2 (counterexample): a host-to-device packet whose first payload byte
is `0x10` and whose payload is shorter than 7 bytes is not classified as
an FFB command, although `0x10` lies in the claim's range `0x01–0x15` —
the source's report-id set omits `0x10`. -/
theorem c2_is_ffb_command_counterexample :
    is_ffb_command { timestamp := 0, direction := PacketDirection.HostToDevice,
                     endpoint := 1, data := [0x10, 0] } = false ∧
    claimFfbReportId 0x10 ∧ ([0x10, 0] : List Nat).length < 7 := by
  refine ⟨by decide, ?_, by decide⟩
  unfold claimFfbReportId
  decide

/-- C2 (amended): a host-to-device packet with non-empty payload is
classified as an FFB command iff its first payload byte lies in
`{0x01–0x0F, 0x11–0x15, 0x21, 0xF3, 0xF5}` (the claim's set without
`0x10`) or its payload is at least 7 bytes long. -/
theorem c2_is_ffb_command_amended :
    ∀ p : UsbPacket, p.direction = PacketDirection.HostToDevice → p.data ≠ [] →
      (is_ffb_command p = true ↔
        (sourceFfbReportId (p.data.headD 0) ∨ 7 ≤ p.data.length)) := by
  intro p hdir hne
  rcases hp : p.data with _ | ⟨b, rest⟩
  · exact (hne hp).elim
  · rw [is_ffb_command, hdir, hp]
    simp [sourceFfbReportId]
    omega

/-- Witness for C2 (amended) at a 2-byte packet with report id `0x01`. -/
theorem c2_is_ffb_command_amended_witness :
    is_ffb_command { timestamp := 0, direction := PacketDirection.HostToDevice,
                     endpoint := 1, data := [0x01, 0] } = true ↔
      (sourceFfbReportId (([0x01, 0] : List Nat).headD 0) ∨ 7 ≤ ([0x01, 0] : List Nat).length) :=
  c2_is_ffb_command_amended
    { timestamp := 0, direction := PacketDirection.HostToDevice, endpoint := 1, data := [0x01, 0] }
    rfl (by decide)

end FfbReplay

namespace FfbReplay

/-- C3: the Direct Protocol Encoder's constant-magnitude quantization
maps 1 to 0; fixes 0, 10000 and -10000; moves every other input one unit
toward zero; and writes the result little-endian into the
`SetConstantMagnitude` report; in particular `quantize(50) = 49` and
`quantize(-50) = -49`. -/
theorem c3_constant_magnitude_quantization :
    (∀ m : Int, -32768 ≤ m → m ≤ 32767 →
      (m = 1 → constantMagnitudeAdjust m = 0) ∧
      ((m = 0 ∨ m = 10000 ∨ m = -10000) → constantMagnitudeAdjust m = m) ∧
      (m ≠ 1 ∧ m ≠ 0 ∧ m ≠ 10000 ∧ m ≠ -10000 → 0 < m → constantMagnitudeAdjust m = m - 1) ∧
      (m ≠ 1 ∧ m ≠ 0 ∧ m ≠ 10000 ∧ m ≠ -10000 → m < 0 → constantMagnitudeAdjust m = m + 1) ∧
      (∀ slot : Nat, create_set_constant_magnitude_report slot m =
        [0x01, 0x05, slot, u16of (constantMagnitudeAdjust m) % 256,
         u16of (constantMagnitudeAdjust m) / 256 % 256,
         0, 0, 0, 0, 0, 0, 0, 0, 0, 0, 0, 0, 0, 0, 0, 0])) ∧
    constantMagnitudeAdjust 50 = 49 ∧ constantMagnitudeAdjust (-50) = -49 := by
  refine ⟨?_, by decide, by decide⟩
  intro m h1 h2
  refine ⟨?_, ?_, ?_, ?_, ?_⟩
  · intro h; subst h; decide
  · intro h
    simp only [constantMagnitudeAdjust, i16SaturatingSub, i16SaturatingAdd]
    split_ifs <;> omega
  · intro hne hpos
    simp only [constantMagnitudeAdjust, i16SaturatingSub, i16SaturatingAdd]
    split_ifs <;> omega
  · intro hne hneg
    simp only [constantMagnitudeAdjust, i16SaturatingSub, i16SaturatingAdd]
    split_ifs <;> omega
  · intro slot
    simp [create_set_constant_magnitude_report, FfbReport.to_bytes, FfbReport.mkDefault,
      FfbCommand.code]

/-- Witness for C3 at magnitude 5 (quantized one unit toward zero). -/
theorem c3_constant_magnitude_quantization_witness :
    ((-32768 : Int) ≤ 5 ∧ (5 : Int) ≤ 32767) ∧ constantMagnitudeAdjust 5 = 5 - 1 :=
  ⟨⟨by decide, by decide⟩,
   (c3_constant_magnitude_quantization.1 5 (by decide) (by decide)).2.2.1
     ⟨by decide, by decide, by decide, by decide⟩ (by decide)⟩

/-- C4: on an initialized driver, a Constant effect emits
`SetConstantMagnitude` exactly when the magnitude is neither 0 nor -1,
always followed by `SetEffect` and `StartEffect` in that order; so
magnitudes 0 and -1 produce exactly 2 reports and magnitude 5000
produces exactly 3 with `SetConstantMagnitude` first. -/
theorem c4_constant_effect_sequence :
    ∀ (s : SimagicDriver) (params : EffectParams) (force : ConstantForce),
      s.initialized = true →
      (s.apply_effect (Effect.Constant params force) =
        (Except.ok ((simagicReports s (Effect.Constant params force)).map format_hex), s)) ∧
      (force.magnitude ≠ 0 ∧ force.magnitude ≠ -1 →
        simagicReports s (Effect.Constant params force) =
          [create_set_constant_magnitude_report s.current_effect_slot force.magnitude,
           create_set_effect_report SimagicEffectType.Constant params.duration,
           create_start_effect_report SimagicEffectType.Constant s.current_effect_slot] ∧
        (simagicReports s (Effect.Constant params force)).map (fun r => r.getD 1 0) =
          [0x05, 0x01, 0x0A]) ∧
      ((force.magnitude = 0 ∨ force.magnitude = -1) →
        simagicReports s (Effect.Constant params force) =
          [create_set_effect_report SimagicEffectType.Constant params.duration,
           create_start_effect_report SimagicEffectType.Constant s.current_effect_slot] ∧
        (simagicReports s (Effect.Constant params force)).length = 2) ∧
      (force.magnitude = 5000 →
        (simagicReports s (Effect.Constant params force)).length = 3 ∧
        (simagicReports s (Effect.Constant params force)).headD [] =
          create_set_constant_magnitude_report s.current_effect_slot force.magnitude) := by
  intro s params force hinit
  refine ⟨?_, ?_, ?_, ?_⟩
  · rw [SimagicDriver.apply_effect, if_neg (by simp [hinit])]
  · intro h
    rw [simagicReports]
    simp only [simagicEffectTypeOf, if_pos h]
    constructor
    · rfl
    · simp [create_set_constant_magnitude_report, create_set_effect_report,
        create_start_effect_report, FfbReport.to_bytes, FfbReport.mkDefault, FfbCommand.code]
  · intro h
    rw [simagicReports]
    simp only [simagicEffectTypeOf]
    rw [if_neg (by rcases h with h | h <;> simp [h])]
    exact ⟨rfl, rfl⟩
  · intro h
    rw [simagicReports]
    simp only [simagicEffectTypeOf]
    rw [if_pos (by rw [h]; exact ⟨by decide, by decide⟩)]
    exact ⟨rfl, rfl⟩

/-- Witness for C4 at an initialized driver and magnitude 5000. -/
theorem c4_constant_effect_sequence_witness :
    (({ current_effect_slot := 1, initialized := true } : SimagicDriver).initialized = true) ∧
    (simagicReports { current_effect_slot := 1, initialized := true }
        (Effect.Constant { duration := 1000, start_delay := 0, gain := 10000 }
          { magnitude := 5000, direction := { val := 0 },
            envelope := { attack_time := 0, attack_level := 0, fade_time := 0, fade_level := 0 } })).length = 3 :=
  ⟨rfl,
   ((c4_constant_effect_sequence { current_effect_slot := 1, initialized := true }
      { duration := 1000, start_delay := 0, gain := 10000 }
      { magnitude := 5000, direction := { val := 0 },
        envelope := { attack_time := 0, attack_level := 0, fade_time := 0, fade_level := 0 } }
      rfl).2.2.2 rfl).1⟩

/-- On the documented domain the `f32` offset encoder equals the spec's
exact away-from-zero rounding over `3.28 = 82/25`. -/
theorem condOffsetEncode_eq_spec (o : Int) (h1 : -10000 ≤ o) (h2 : o ≤ 10000) :
    condOffsetEncode o = specOffsetEncode o := by
  rw [condOffsetEncode, specOffsetEncode, c5offPoint o.natAbs (by omega)]

/-- On the `i16` domain above `-32768` the coefficient encoder is the
spec's plain decrement (the wrap of `as i16` never fires). -/
theorem condCoeffEncode_eq_spec (c : Int) (h : -32767 ≤ c) :
    condCoeffEncode c = specCoeffEncode c := by
  simp only [condCoeffEncode, specCoeffEncode, wrapI16]
  split_ifs <;> omega

/-- C5 (counterexample): the dead-band encoder maps 656 to 100, not to
the claimed 101 — and the claim's own exact-ceiling formula also gives
100, since `656 / 6.56 = 100` exactly. -/
theorem c5_deadband_counterexample :
    condDeadbandEncode 656 = 100 ∧ condDeadbandEncode 656 ≠ 101 ∧
    specDeadbandEncode 656 = 100 := by
  refine ⟨by decide, by decide, by decide⟩

/-- C5 (amended): the condition-parameter report encodes offset as
`offset/3.28` rounded away from zero, coefficients unchanged only at 0
or at least 10000 and decremented otherwise, saturations as `sat/2 - 1`
saturating at 0 (so `encode_sat(10000) = 4999`), and dead band as
`ceil(dead_band/6.56)` — which maps 656 to 100, not 101 — all fields
little-endian at their documented byte offsets. -/
theorem c5_condition_params_encoding_amended :
    ∀ (et : SimagicEffectType) (p : ConditionParams),
      -10000 ≤ p.offset → p.offset ≤ 10000 →
      -32767 ≤ p.positive_coefficient → -32767 ≤ p.negative_coefficient →
      p.dead_band ≤ 10000 →
      create_set_condition_params_report et p =
        [0x01, 0x03, et.code, 0x00,
         u16of (specOffsetEncode p.offset) % 256,
         u16of (specOffsetEncode p.offset) / 256 % 256,
         u16of (specCoeffEncode p.positive_coefficient) % 256,
         u16of (specCoeffEncode p.positive_coefficient) / 256 % 256,
         u16of (specCoeffEncode p.negative_coefficient) % 256,
         u16of (specCoeffEncode p.negative_coefficient) / 256 % 256,
         (p.positive_saturation / 2 - 1) % 256, (p.positive_saturation / 2 - 1) / 256 % 256,
         (p.negative_saturation / 2 - 1) % 256, (p.negative_saturation / 2 - 1) / 256 % 256,
         specDeadbandEncode p.dead_band % 256, specDeadbandEncode p.dead_band / 256 % 256,
         0, 0, 0, 0, 0] ∧
      condSatEncode 10000 = 4999 ∧ condDeadbandEncode 656 = 100 := by
  intro et p h1 h2 h3 h4 h5
  refine ⟨?_, by decide, by decide⟩
  simp only [create_set_condition_params_report, FfbReport.to_bytes, FfbReport.mkDefault,
    FfbCommand.code, condSatEncode, specDeadbandEncode, List.cons_append, List.nil_append]
  rw [condOffsetEncode_eq_spec _ h1 h2, condCoeffEncode_eq_spec _ h3,
    condCoeffEncode_eq_spec _ h4, c5dbPoint _ h5]

/-- Witness for C5 (amended) at a Spring report with offset 82,
coefficients 5000 and 0, saturations 10000 and 0, dead band 656. -/
theorem c5_condition_params_encoding_amended_witness :
    create_set_condition_params_report SimagicEffectType.Spring
      { offset := 82, positive_coefficient := 5000, negative_coefficient := 0,
        positive_saturation := 10000, negative_saturation := 0, dead_band := 656 } =
      [0x01, 0x03, SimagicEffectType.Spring.code, 0x00,
       u16of (specOffsetEncode 82) % 256, u16of (specOffsetEncode 82) / 256 % 256,
       u16of (specCoeffEncode 5000) % 256, u16of (specCoeffEncode 5000) / 256 % 256,
       u16of (specCoeffEncode 0) % 256, u16of (specCoeffEncode 0) / 256 % 256,
       (10000 / 2 - 1) % 256, (10000 / 2 - 1) / 256 % 256,
       (0 / 2 - 1) % 256, (0 / 2 - 1) / 256 % 256,
       specDeadbandEncode 656 % 256, specDeadbandEncode 656 / 256 % 256,
       0, 0, 0, 0, 0] :=
  (c5_condition_params_encoding_amended SimagicEffectType.Spring
    { offset := 82, positive_coefficient := 5000, negative_coefficient := 0,
      positive_saturation := 10000, negative_saturation := 0, dead_band := 656 }
    (by decide) (by decide) (by decide) (by decide) (by decide)).1

/-- C6: every `SetEffect` report is exactly the 21 bytes
`[0x01, 0x01, effect-type, 0x01, duration-lo, duration-hi, 0, 0, 0, 0,
0xFF, 0xFF, 0x04, 0x3F, 0 × 7]` with the duration clamped to `0xFFFF`,
for every duration value. -/
theorem c6_set_effect_report_layout :
    ∀ (effect_type : SimagicEffectType) (duration_ms : Nat),
      create_set_effect_report effect_type duration_ms =
        [0x01, 0x01, effect_type.code, 0x01,
         min duration_ms 0xFFFF % 256, min duration_ms 0xFFFF / 256,
         0x00, 0x00, 0x00, 0x00, 0xFF, 0xFF, 0x04, 0x3F,
         0, 0, 0, 0, 0, 0, 0] ∧
      (create_set_effect_report effect_type duration_ms).length = 21 := by
  intro et d
  have hdiv : min d 0xFFFF / 256 % 256 = min d 0xFFFF / 256 :=
    Nat.mod_eq_of_lt (by omega)
  constructor
  · simp only [create_set_effect_report, FfbReport.to_bytes, FfbReport.mkDefault,
      FfbCommand.code, List.cons_append, List.nil_append, hdiv]
  · simp [create_set_effect_report, FfbReport.to_bytes, FfbReport.mkDefault]

end FfbReplay

namespace FfbReplay

/-- C7: evaluating the streaming parser at a concrete header-plus-record
stream.  Fed whole (or split before byte 16) it yields the single decoded
packet; split at byte 16 — a first chunk of 16 bytes, entirely inside
the 24-byte global header — the parser consumes 16 header bytes as a
bogus record before validating the magic, then rejects the rest of the
stream, yielding no packet at all. -/
theorem c7_pcap_split_divergence :
    (feedChunks [c7stream]).packets = [c7packet] ∧
    (feedChunks [c7stream.take 8, c7stream.drop 8]).packets = [c7packet] ∧
    (feedChunks [c7stream.take 30, c7stream.drop 30]).packets = [c7packet] ∧
    (feedChunks [c7stream.take 16, c7stream.drop 16]).packets = [] ∧
    (feedChunks [c7stream.take 16, c7stream.drop 16]).halted = true ∧
    c7stream.take 16 ++ c7stream.drop 16 = c7stream := by
  refine ⟨by decide, by decide, by decide, by decide, by decide, by decide⟩

/-- C8: `get_packets` returns the whole queue in order (also after any
sequence of capture pushes) and leaves it empty, so an immediate second
call returns the empty list. -/
theorem c8_get_packets_drains :
    ∀ (s : UsbMonitorState) (ps : List UsbPacket),
      (get_packets s).1 = s.packets ∧
      (get_packets ((get_packets s).2)).1 = [] ∧
      (get_packets (ps.foldl pushPacket s)).1 = s.packets ++ ps := by
  have key : ∀ (ps : List UsbPacket) (s : UsbMonitorState),
      (ps.foldl pushPacket s).packets = s.packets ++ ps := by
    intro ps
    induction ps with
    | nil => intro s; simp
    | cons p t ih =>
      intro s
      rw [List.foldl_cons, ih]
      simp [pushPacket]
  intro s ps
  exact ⟨rfl, rfl, key ps s⟩

/-- C9: `apply_effect` on an uninitialized driver — either backend —
fails with `DeviceError` and leaves the driver state unchanged. -/
theorem c9_apply_effect_uninitialized :
    ∀ (effect : Effect) (s : SimagicDriver) (d : SdlDriverState) (hw : SdlHw),
      s.initialized = false → d.initialized = false →
      s.apply_effect effect =
        (Except.error (FFBError.DeviceError ("Device not initialized")), s) ∧
      SdlDriverState.apply_effect hw d effect =
        (Except.error (FFBError.DeviceError ("Device not initialized")), d) := by
  intro e s d hw hs hd
  constructor
  · rw [SimagicDriver.apply_effect, if_pos (by simp [hs])]
  · rw [SdlDriverState.apply_effect, if_pos (Or.inl (by simp [hd]))]

/-- Witness for C9 at freshly constructed drivers and a Constant effect. -/
theorem c9_apply_effect_uninitialized_witness :
    SimagicDriver.new.initialized = false ∧ SdlDriverState.new.initialized = false ∧
    SimagicDriver.new.apply_effect
        (Effect.Constant { duration := 0, start_delay := 0, gain := 10000 }
          { magnitude := 0, direction := { val := 0 },
            envelope := { attack_time := 0, attack_level := 0, fade_time := 0, fade_level := 0 } }) =
      (Except.error (FFBError.DeviceError ("Device not initialized")), SimagicDriver.new) :=
  ⟨rfl, rfl,
   (c9_apply_effect_uninitialized
     (Effect.Constant { duration := 0, start_delay := 0, gain := 10000 }
       { magnitude := 0, direction := { val := 0 },
         envelope := { attack_time := 0, attack_level := 0, fade_time := 0, fade_level := 0 } })
     SimagicDriver.new SdlDriverState.new
     { create_ok := true, run_ok := true, captured := [] } rfl rfl).1⟩

/-- C10: every packet either platform decoder produces is host-to-device
with a payload of at least two bytes; in particular a host-to-device
record with a 1-byte payload is dropped by both decoders. -/
theorem c10_decoder_invariants :
    (∀ (data : List Nat) (p : UsbPacket),
      (parse_usbmon_packet data = some p ∨ parse_usbpcap_packet data = some p) →
      p.direction = PacketDirection.HostToDevice ∧ 2 ≤ p.data.length) ∧
    parse_usbmon_packet usbmonOneByteRecord = none ∧
    parse_usbpcap_packet usbpcapOneByteSample = none := by
  refine ⟨?_, by decide, by decide⟩
  intro data p h
  rcases h with h | h
  · simp only [parse_usbmon_packet] at h
    split_ifs at h
    all_goals
      first
        | (rw [Option.some_inj] at h
           subst h
           refine ⟨?_, ?_⟩
           · first | rfl | simp_all
           · simp only [not_or, Nat.not_lt] at *
             omega)

  · simp only [parse_usbpcap_packet] at h
    split_ifs at h
    all_goals
      first
        | (rw [Option.some_inj] at h
           subst h
           refine ⟨?_, ?_⟩
           · first | rfl | simp_all
           · simp only [not_or, Nat.not_lt] at *
             omega)


/-- Witness for C10: the concrete usbmon record decodes to a packet, and
the theorem yields its invariants. -/
theorem c10_decoder_invariants_witness :
    parse_usbmon_packet (usbmonHeaderBytes ++ [1, 8]) = some c7packet ∧
    (c7packet.direction = PacketDirection.HostToDevice ∧ 2 ≤ c7packet.data.length) :=
  ⟨by decide,
   c10_decoder_invariants.1 (usbmonHeaderBytes ++ [1, 8]) c7packet (Or.inl (by decide))⟩

end FfbReplay

